import Mathlib

/-!
Shallow embedding of the core of the `test-game-server` repository:
the movement validator (`src/anticheat/validation.rs`), the player actor's
move handler (`src/player/actor.rs`), the snapshot maintainer
(`src/network/broadcast.rs`), the per-connection rate limiter
(`src/handlers/websocket.rs`), the actor path algebra
(`src/actor_system/actor/path.rs`) and the pre-start retry loop of the
actor runner (`src/actor_system/actor/runner.rs`).

Modelling conventions: `f32` arithmetic is embedded as exact rational
arithmetic (`ℚ`); a comparison `sqrt d > b` on a nonnegative squared
distance `d` is rendered by the exact test `b < 0 ∨ d > b²`, which agrees
with the real-valued comparison.  `u32` counters are embedded as `Nat`
(debug builds of the source abort on overflow, so wrapping is never the
defined behaviour on the paths considered here).  Monotonic timestamps
(`Instant`) are embedded as `Nat` milliseconds, with the ambient clock
passed explicitly.  Logging and the transport layer are out of scope;
frames sent to the client and events published to the bus are returned as
explicit lists.
-/

namespace GameServer

/-- Source `types.rs`: `Position { x, y, z : f32 }`, modelled with exact rationals. -/
structure Position where
  x : ℚ
  y : ℚ
  z : ℚ
deriving DecidableEq, Repr

/-- The squared Euclidean distance between two positions.  The source's
`Position::distance_to` is the square root of this quantity. -/
def Position.distSqTo (p q : Position) : ℚ :=
  (p.x - q.x) * (p.x - q.x) + (p.y - q.y) * (p.y - q.y) + (p.z - q.z) * (p.z - q.z)

/-- Source `Position::default()`: the origin. -/
def Position.default : Position := ⟨0, 0, 0⟩

/-- Exact rendering of the `f32` comparison `sqrt dsq > bound` for a
nonnegative radicand `dsq`: true iff `bound` is negative, or `dsq`
exceeds `bound²`. -/
def sqrtGT (dsq bound : ℚ) : Bool :=
  decide (bound < 0) || decide (bound * bound < dsq)

/-- Source `types.rs`: `MAX_SPEED = 100.0`. -/
def MAX_SPEED : ℚ := 100

/-- Source `types.rs`: `TELEPORT_THRESHOLD = 300.0`. -/
def TELEPORT_THRESHOLD : ℚ := 300

/-- Source `types.rs`: `MAX_VIOLATIONS = 10`. -/
def MAX_VIOLATIONS : ℕ := 10

/-- Source `types.rs`: `WORLD_BOUNDS = 1000.0`. -/
def WORLD_BOUNDS : ℚ := 1000

/-- Source `anticheat/validation.rs`: the classification of a movement. -/
inductive ValidationResult where
  | Valid
  | SpeedHack
  | Teleport
  | OutOfBounds
deriving DecidableEq, Repr

/-- Source `anticheat/validation.rs`: `is_in_bounds(pos, bounds)` —
`pos.x.abs() <= bounds && pos.y.abs() <= bounds && pos.z.abs() <= bounds`. -/
def is_in_bounds (pos : Position) (bounds : ℚ) : Bool :=
  decide (|pos.x| ≤ bounds) && decide (|pos.y| ≤ bounds) && decide (|pos.z| ≤ bounds)

/-- Source `anticheat/validation.rs`: `is_teleport(old, new, max_distance)` —
`old.distance_to(new) > max_distance`, in exact arithmetic. -/
def is_teleport (old_pos new_pos : Position) (max_distance : ℚ) : Bool :=
  sqrtGT (old_pos.distSqTo new_pos) max_distance

/-- Source `anticheat/validation.rs`: `validate_movement`.  The `velocity`
argument is present but unused, exactly as in the source
(`_velocity: &Position`). -/
def validate_movement (old_pos new_pos : Position) (_velocity : Position)
    (delta_time max_speed : ℚ) : ValidationResult :=
  if !(is_in_bounds new_pos WORLD_BOUNDS) then ValidationResult.OutOfBounds
  else if is_teleport old_pos new_pos TELEPORT_THRESHOLD then ValidationResult.Teleport
  else if sqrtGT (old_pos.distSqTo new_pos) (max_speed * delta_time * 3) then
    ValidationResult.SpeedHack
  else ValidationResult.Valid

/-- The decision tree exactly as the specification words it: OutOfBounds if
any coordinate magnitude of the new position exceeds 1000; else Teleport if
the distance from old to new exceeds 300; else SpeedHack if the distance
exceeds `max_speed * delta_time * 3`; else Valid. -/
def movementSpecTree (old_pos new_pos : Position) (delta_time max_speed : ℚ) :
    ValidationResult :=
  if decide (WORLD_BOUNDS < |new_pos.x|) || decide (WORLD_BOUNDS < |new_pos.y|)
      || decide (WORLD_BOUNDS < |new_pos.z|) then ValidationResult.OutOfBounds
  else if sqrtGT (old_pos.distSqTo new_pos) TELEPORT_THRESHOLD then ValidationResult.Teleport
  else if sqrtGT (old_pos.distSqTo new_pos) (max_speed * delta_time * 3) then
    ValidationResult.SpeedHack
  else ValidationResult.Valid

/-- Source `types.rs`: `PlayerState` (snapshot form). `last_update` is an
`Instant`, modelled as `Nat` milliseconds. -/
structure PlayerState where
  player_id : String
  wallet : String
  nickname : String
  position : Position
  velocity : Position
  last_update : ℕ
  previous_position : Position
  violations : ℕ
deriving DecidableEq, Repr

/-- Source `types.rs`: `GameEvent`. -/
inductive GameEvent where
  | PlayerJoined (player_id : String) (wallet : String) (position : Position)
  | PlayerMoved (player_id : String) (position : Position) (velocity : Position)
  | PlayerLeft (player_id : String)
deriving DecidableEq, Repr

/-- Source `types.rs`: `ServerMessage` (server-to-client frames). -/
inductive ServerMessage where
  | StateUpdate (players : List PlayerState)
  | Error (message : String)
  | Kicked (reason : String)
deriving DecidableEq, Repr

/-- Source `player/state.rs`: the `MovePlayer` message. -/
structure MovePlayer where
  position : Position
  velocity : Position
  delta_time : ℚ
deriving DecidableEq, Repr

/-- The mutable fields of `player/actor.rs`'s `PlayerActor` (the `ws_sender`
sink is replaced by returning the sent frames explicitly). -/
structure PlayerActor where
  player_id : String
  wallet : String
  nickname : String
  position : Position
  velocity : Position
  last_update : ℕ
  violations : ℕ
deriving DecidableEq, Repr

/-- Source `player/actor.rs`: `PlayerActor::new` — default (origin) position and
velocity, zero violations; `last_update` is the current instant `now`. -/
def PlayerActor.new (player_id wallet nickname : String) (now : ℕ) : PlayerActor :=
  { player_id := player_id, wallet := wallet, nickname := nickname,
    position := Position.default, velocity := Position.default,
    last_update := now, violations := 0 }

/-- Source `player/actor.rs`: `PlayerActor::handle_violation` — increment
`violations`, send one `Error` frame `"<type> detected. Violations: v/MAX"`,
and additionally send `Kicked{"Too many anti-cheat violations"}` when the
incremented count reaches `MAX_VIOLATIONS`.  Returns the new state and the
frames sent, in order. -/
def PlayerActor.handle_violation (s : PlayerActor) (violation_type : String) :
    PlayerActor × List ServerMessage :=
  let v := s.violations + 1
  let s' := { s with violations := v }
  let errFrame := ServerMessage.Error
    (violation_type ++ " detected. Violations: " ++ toString v ++ "/" ++ toString MAX_VIOLATIONS)
  if MAX_VIOLATIONS ≤ v then
    (s', [errFrame, ServerMessage.Kicked "Too many anti-cheat violations"])
  else
    (s', [errFrame])

/-- The result of one `MovePlayer` handler invocation: the new actor state,
the frames sent to the client, and the events published to the bus. -/
structure MoveOutcome where
  state : PlayerActor
  frames : List ServerMessage
  events : List GameEvent
deriving DecidableEq, Repr

/-- Source `player/actor.rs`: `Handler<GameEvent, MovePlayer> for PlayerActor` —
classify the move with `validate_movement (self.position) (msg.position)
(msg.velocity) (msg.delta_time) MAX_SPEED`; on Valid commit position and
velocity, set `last_update` to now, zero `violations` and publish
`PlayerMoved`; on SpeedHack or Teleport call `handle_violation`; on
OutOfBounds send `Error{"Position out of bounds"}` and change nothing. -/
def PlayerActor.handleMove (s : PlayerActor) (msg : MovePlayer) (now : ℕ) : MoveOutcome :=
  match validate_movement s.position msg.position msg.velocity msg.delta_time MAX_SPEED with
  | ValidationResult.Valid =>
      { state := { s with position := msg.position, velocity := msg.velocity,
                          last_update := now, violations := 0 },
        frames := [],
        events := [GameEvent.PlayerMoved s.player_id msg.position msg.velocity] }
  | ValidationResult.SpeedHack =>
      let r := s.handle_violation "SPEED HACK"
      { state := r.1, frames := r.2, events := [] }
  | ValidationResult.Teleport =>
      let r := s.handle_violation "TELEPORT"
      { state := r.1, frames := r.2, events := [] }
  | ValidationResult.OutOfBounds =>
      { state := s, frames := [ServerMessage.Error "Position out of bounds"], events := [] }

/-- Handling a sequence of `MovePlayer` messages in order, concatenating the
frames sent and the events published. -/
def PlayerActor.runMoves (s : PlayerActor) (msgs : List MovePlayer) (now : ℕ) : MoveOutcome :=
  match msgs with
  | [] => { state := s, frames := [], events := [] }
  | m :: rest =>
      let o := s.handleMove m now
      let o' := o.state.runMoves rest now
      { state := o'.state, frames := o.frames ++ o'.frames, events := o.events ++ o'.events }

/-- A frame is a `Kicked` frame. -/
def ServerMessage.isKicked : ServerMessage → Bool
  | ServerMessage.Kicked _ => true
  | _ => false

/-- A frame is an `Error` frame. -/
def ServerMessage.isError : ServerMessage → Bool
  | ServerMessage.Error _ => true
  | _ => false

/-- A `MovePlayer` message that classifies as SpeedHack from the origin:
distance 40 from the origin, velocity zero, `delta_time = 1/10`
(40 > 100 · 0.1 · 3 = 30, and 40 ≤ 300, in bounds). -/
def speedHackMsg : MovePlayer := ⟨⟨40, 0, 0⟩, Position.default, 1 / 10⟩

/-- A freshly connected test actor (position and velocity at the origin,
zero violations). -/
def testActor : PlayerActor := PlayerActor.new "p1" "w1" "n1" 0

/-- Source `network/broadcast.rs`: the shared snapshot table, a concurrent map from
player id to `PlayerState`, modelled as a partial function. -/
def SnapshotTable := String → Option PlayerState

/-- The empty snapshot table. -/
def emptyTable : SnapshotTable := fun _ => none

/-- The effect of `player_id.strip_prefix("player_").unwrap_or(&player_id)`
in `network/broadcast.rs`: drop a leading `"player_"` when present,
otherwise keep the id.  (`String.startsWith` does not reduce in the kernel,
so the test is phrased on the character lists.) -/
def stripPlayerTag (player_id : String) : String :=
  if "player_".toList.isPrefixOf player_id.toList then player_id.drop 7 else player_id

/-- Source `network/broadcast.rs`: the nickname stored on `PlayerJoined` —
`format!("Player_{}", player_id.strip_prefix("player_").unwrap_or(&player_id))`. -/
def broadcastNickname (player_id : String) : String :=
  "Player_" ++ stripPlayerTag player_id

/-- The nickname as the specification's sentence reads it: the id with a
`player_` tag stripped, and nothing else. -/
def specNicknameStrippedOnly (player_id : String) : String :=
  stripPlayerTag player_id

/-- Source `network/broadcast.rs`: `handle_game_event` — insert on `PlayerJoined`
(zero velocity, zero violations, `previous_position` = position), update in
place on `PlayerMoved` when the entry exists (shifting `previous_position`),
drop `PlayerMoved` for unknown ids, remove on `PlayerLeft`. -/
def handle_game_event (now : ℕ) (event : GameEvent) (states : SnapshotTable) : SnapshotTable :=
  match event with
  | GameEvent.PlayerJoined pid wallet pos =>
      fun k => if k = pid then
          some { player_id := pid, wallet := wallet, nickname := broadcastNickname pid,
                 position := pos, velocity := Position.default, last_update := now,
                 previous_position := pos, violations := 0 }
        else states k
  | GameEvent.PlayerMoved pid pos vel =>
      match states pid with
      | none => states
      | some st =>
          fun k => if k = pid then
              some { st with previous_position := st.position, position := pos,
                             velocity := vel, last_update := now }
            else states k
  | GameEvent.PlayerLeft pid =>
      fun k => if k = pid then none else states k

/-- Folding the snapshot maintainer's event handler over a finite event
sequence, in order. -/
def applyEvents (now : ℕ) (events : List GameEvent) (states : SnapshotTable) : SnapshotTable :=
  match events with
  | [] => states
  | e :: rest => applyEvents now rest (handle_game_event now e states)

/-- The event is `PlayerJoined` for this id. -/
def isJoinOf (id : String) : GameEvent → Bool
  | GameEvent.PlayerJoined pid _ _ => pid == id
  | _ => false

/-- The event is `PlayerLeft` for this id. -/
def isLeaveOf (id : String) : GameEvent → Bool
  | GameEvent.PlayerLeft pid => pid == id
  | _ => false

/-- The specification's membership condition: the sequence contains a
`PlayerJoined` for the id with no later `PlayerLeft` for it. -/
def containsJoinNoLeaveAfter (events : List GameEvent) (id : String) : Bool :=
  match events with
  | [] => false
  | e :: rest =>
      (isJoinOf id e && !(rest.any (isLeaveOf id))) || containsJoinNoLeaveAfter rest id

/-- Source `handlers/websocket.rs`: `RATE_LIMIT_WINDOW_MS = 1000`. -/
def RATE_LIMIT_WINDOW_MS : ℕ := 1000

/-- Source `handlers/websocket.rs`: `MAX_MOVES_PER_SECOND = 60`. -/
def MAX_MOVES_PER_SECOND : ℕ := 60

/-- The per-connection rate-limiter state of `handlers/websocket.rs`'s read
loop: `move_count` and `window_start`. -/
structure RateLimiter where
  move_count : ℕ
  window_start : ℕ
deriving DecidableEq, Repr

/-- Source `handlers/websocket.rs`: the `Move` arm of `process_message` at instant
`now` — if at least `RATE_LIMIT_WINDOW_MS` have elapsed since
`window_start`, advance the window anchor to `now` and reset `move_count`;
then increment `move_count`; the move is forwarded to the actor (result
`true`) iff the incremented count does not exceed `MAX_MOVES_PER_SECOND`. -/
def process_move (rl : RateLimiter) (now : ℕ) : RateLimiter × Bool :=
  let rl' := if RATE_LIMIT_WINDOW_MS ≤ now - rl.window_start then
      { move_count := 0, window_start := now } else rl
  let c := rl'.move_count + 1
  ({ move_count := c, window_start := rl'.window_start }, decide (c ≤ MAX_MOVES_PER_SECOND))

/-- Running the rate limiter over a timestamped sequence of inbound `Move`
frames, returning each frame's forwarding decision in order. -/
def rateLimitSteps (rl : RateLimiter) (ts : List ℕ) : List Bool :=
  match ts with
  | [] => []
  | t :: rest =>
      let r := process_move rl t
      r.2 :: rateLimitSteps r.1 rest

/-- Source `actor_system/actor/path.rs`: `ActorPath(Vec<String>)`. -/
structure ActorPath where
  segments : List String
deriving DecidableEq, Repr

/-- Source `path.rs`: `parent` — drop the last segment when there are at least
two, else the empty path. -/
def ActorPath.parent (p : ActorPath) : ActorPath :=
  if 1 < p.segments.length then ⟨p.segments.dropLast⟩ else ⟨[]⟩

/-- Source `path.rs`: `key` — the last segment, or `""` for the empty path. -/
def ActorPath.key (p : ActorPath) : String :=
  p.segments.getLast?.getD ""

/-- Source `path.rs`: `Div<&str> for ActorPath` — append a segment. -/
instance : HDiv ActorPath String ActorPath :=
  ⟨fun p s => ⟨p.segments ++ [s]⟩⟩

/-- A retry strategy as `actor_system/actor/supervision.rs` exposes it to
the runner: `max_retries()`, and the (stateful) `next_backoff()` modelled
by the result of its k-th call. -/
structure RetryStrategyM where
  maxRetries : ℕ
  nextBackoff : ℕ → Option ℕ

/-- The retry loop of `actor_system/actor/runner.rs`'s `start` (the
`SupervisionStrategy::Retry` arm): while `retries < max_retries` and the
start error is present, consult `next_backoff()` (sleeping for the returned
duration when it is `some`, doing nothing when it is `none`), increment
`retries`, and attempt `pre_restart`.  Arguments: remaining iterations
(`max_retries - retries`), the current `retries` value, whether a start
error is present, indexed by the restart-attempt number via `restartOk`.
Returns the number of restart attempts made and the total time slept. -/
def runnerRetryGo (nb : ℕ → Option ℕ) (restartOk : ℕ → Bool) :
    ℕ → ℕ → Bool → ℕ × ℕ
  | 0, retries, _ => (retries, 0)
  | _ + 1, retries, false => (retries, 0)
  | n + 1, retries, true =>
      let slept := (nb retries).getD 0
      let r := runnerRetryGo nb restartOk n (retries + 1) (!(restartOk retries))
      (r.1, slept + r.2)

/-- The whole retry phase after a failed `pre_start`: run the loop with
`retries = 0` and the start error present. -/
def actorRunnerRetry (s : RetryStrategyM) (restartOk : ℕ → Bool) : ℕ × ℕ :=
  runnerRetryGo s.nextBackoff restartOk s.maxRetries 0 true

end GameServer

namespace GameServer

theorem speedHackMsg_classifies :
    validate_movement Position.default speedHackMsg.position speedHackMsg.velocity
      speedHackMsg.delta_time MAX_SPEED = ValidationResult.SpeedHack := by
  simp [validate_movement, is_in_bounds, is_teleport, sqrtGT, Position.distSqTo,
    Position.default, speedHackMsg, WORLD_BOUNDS, TELEPORT_THRESHOLD, MAX_SPEED]
  norm_num

theorem handle_violation_eq (s : PlayerActor) (vt : String) :
    s.handle_violation vt =
      ({ s with violations := s.violations + 1 },
        ServerMessage.Error (vt ++ " detected. Violations: " ++
            toString (s.violations + 1) ++ "/" ++ toString MAX_VIOLATIONS) ::
          (if MAX_VIOLATIONS ≤ s.violations + 1 then
            [ServerMessage.Kicked "Too many anti-cheat violations"] else [])) := by
  simp only [PlayerActor.handle_violation]
  split <;> rfl

theorem handleMove_valid (s : PlayerActor) (msg : MovePlayer) (now : ℕ)
    (hv : validate_movement s.position msg.position msg.velocity msg.delta_time MAX_SPEED =
      ValidationResult.Valid) :
    s.handleMove msg now =
      { state := { s with position := msg.position, velocity := msg.velocity,
                          last_update := now, violations := 0 },
        frames := [],
        events := [GameEvent.PlayerMoved s.player_id msg.position msg.velocity] } := by
  unfold PlayerActor.handleMove
  rw [hv]

theorem handleMove_speedHack (s : PlayerActor) (msg : MovePlayer) (now : ℕ)
    (hv : validate_movement s.position msg.position msg.velocity msg.delta_time MAX_SPEED =
      ValidationResult.SpeedHack) :
    s.handleMove msg now =
      { state := (s.handle_violation "SPEED HACK").1,
        frames := (s.handle_violation "SPEED HACK").2, events := [] } := by
  unfold PlayerActor.handleMove
  rw [hv]

theorem handleMove_teleport (s : PlayerActor) (msg : MovePlayer) (now : ℕ)
    (hv : validate_movement s.position msg.position msg.velocity msg.delta_time MAX_SPEED =
      ValidationResult.Teleport) :
    s.handleMove msg now =
      { state := (s.handle_violation "TELEPORT").1,
        frames := (s.handle_violation "TELEPORT").2, events := [] } := by
  unfold PlayerActor.handleMove
  rw [hv]

theorem handleMove_outOfBounds (s : PlayerActor) (msg : MovePlayer) (now : ℕ)
    (hv : validate_movement s.position msg.position msg.velocity msg.delta_time MAX_SPEED =
      ValidationResult.OutOfBounds) :
    s.handleMove msg now =
      { state := s, frames := [ServerMessage.Error "Position out of bounds"],
        events := [] } := by
  unfold PlayerActor.handleMove
  rw [hv]

/-- C1: `validate_movement` follows the specified decision tree in the
specified order — OutOfBounds (any coordinate of the new position exceeds
`WORLD_BOUNDS = 1000` in magnitude), else Teleport (distance above
`TELEPORT_THRESHOLD = 300`), else SpeedHack (distance above
`max_speed * delta_time * 3`), else Valid — and in particular a new
position of `(2000, 0, 0)` classifies as OutOfBounds, not Teleport. -/
theorem validate_movement_matches_spec_tree :
    (∀ (old_pos new_pos velocity : Position) (delta_time max_speed : ℚ),
      validate_movement old_pos new_pos velocity delta_time max_speed =
        movementSpecTree old_pos new_pos delta_time max_speed) ∧
    (∀ (old_pos velocity : Position) (delta_time max_speed : ℚ),
      validate_movement old_pos ⟨2000, 0, 0⟩ velocity delta_time max_speed =
        ValidationResult.OutOfBounds) := by
  constructor
  · intro old_pos new_pos velocity delta_time max_speed
    have hb : (!(is_in_bounds new_pos WORLD_BOUNDS)) =
        (decide (WORLD_BOUNDS < |new_pos.x|) || decide (WORLD_BOUNDS < |new_pos.y|)
          || decide (WORLD_BOUNDS < |new_pos.z|)) := by
      simp only [is_in_bounds, Bool.not_and, Bool.or_assoc, ← decide_not, not_le]
    simp only [validate_movement, movementSpecTree, is_teleport, hb]
  · intro old_pos velocity delta_time max_speed
    have hb : is_in_bounds ⟨2000, 0, 0⟩ WORLD_BOUNDS = false := by
      simp [is_in_bounds, WORLD_BOUNDS]
      norm_num
    simp [validate_movement, hb]

/-- C10: the result of `validate_movement` does not depend on the velocity
argument (the source binds it as `_velocity` and never reads it). -/
theorem validate_movement_velocity_independent
    (old_pos new_pos v1 v2 : Position) (delta_time max_speed : ℚ) :
    validate_movement old_pos new_pos v1 delta_time max_speed =
      validate_movement old_pos new_pos v2 delta_time max_speed := rfl

/-- C2: the Move handler commits position, velocity and `last_update`,
zeroes `violations` and publishes `PlayerMoved` exactly when the move
classifies as Valid; on every other classification `violations` does not
decrease and position and velocity are unchanged (so over any handled
sequence, `violations` never decreases except through a Valid move). -/
theorem moveHandler_valid_commits_violations_monotone
    (s : PlayerActor) (msg : MovePlayer) (now : ℕ) :
    (validate_movement s.position msg.position msg.velocity msg.delta_time MAX_SPEED =
        ValidationResult.Valid →
      (s.handleMove msg now).state.violations = 0 ∧
      (s.handleMove msg now).state.position = msg.position ∧
      (s.handleMove msg now).state.velocity = msg.velocity ∧
      (s.handleMove msg now).state.last_update = now ∧
      (s.handleMove msg now).events =
        [GameEvent.PlayerMoved s.player_id msg.position msg.velocity]) ∧
    (validate_movement s.position msg.position msg.velocity msg.delta_time MAX_SPEED ≠
        ValidationResult.Valid →
      s.violations ≤ (s.handleMove msg now).state.violations ∧
      (s.handleMove msg now).state.position = s.position ∧
      (s.handleMove msg now).state.velocity = s.velocity ∧
      (s.handleMove msg now).events = []) := by
  cases hv : validate_movement s.position msg.position msg.velocity msg.delta_time MAX_SPEED with
  | Valid =>
      refine ⟨fun _ => ?_, fun h => absurd rfl h⟩
      rw [handleMove_valid s msg now hv]
      simp
  | SpeedHack =>
      refine ⟨fun h => ValidationResult.noConfusion h, fun _ => ?_⟩
      rw [handleMove_speedHack s msg now hv, handle_violation_eq]
      simp
  | Teleport =>
      refine ⟨fun h => ValidationResult.noConfusion h, fun _ => ?_⟩
      rw [handleMove_teleport s msg now hv, handle_violation_eq]
      simp
  | OutOfBounds =>
      refine ⟨fun h => ValidationResult.noConfusion h, fun _ => ?_⟩
      rw [handleMove_outOfBounds s msg now hv]
      simp

/-- C2 witness: a Valid move (to distance 1 from the origin) commits
position and velocity, updates `last_update` and publishes `PlayerMoved`. -/
theorem moveHandler_valid_commits_violations_monotone_witness :
    (testActor.handleMove ⟨⟨1, 0, 0⟩, ⟨2, 0, 0⟩, 1 / 10⟩ 5).state.violations = 0 ∧
    (testActor.handleMove ⟨⟨1, 0, 0⟩, ⟨2, 0, 0⟩, 1 / 10⟩ 5).state.position = ⟨1, 0, 0⟩ ∧
    (testActor.handleMove ⟨⟨1, 0, 0⟩, ⟨2, 0, 0⟩, 1 / 10⟩ 5).state.velocity = ⟨2, 0, 0⟩ ∧
    (testActor.handleMove ⟨⟨1, 0, 0⟩, ⟨2, 0, 0⟩, 1 / 10⟩ 5).state.last_update = 5 ∧
    (testActor.handleMove ⟨⟨1, 0, 0⟩, ⟨2, 0, 0⟩, 1 / 10⟩ 5).events =
      [GameEvent.PlayerMoved "p1" ⟨1, 0, 0⟩ ⟨2, 0, 0⟩] :=
  (moveHandler_valid_commits_violations_monotone testActor ⟨⟨1, 0, 0⟩, ⟨2, 0, 0⟩, 1 / 10⟩ 5).1
    (by
      simp [validate_movement, is_in_bounds, is_teleport, sqrtGT, Position.distSqTo,
        testActor, PlayerActor.new, Position.default, WORLD_BOUNDS, TELEPORT_THRESHOLD,
        MAX_SPEED]
      norm_num)

/-- C3: a SpeedHack or Teleport move increments `violations` by one and
sends exactly the frames `Error "<type> detected. Violations: v/10"`,
followed by `Kicked "Too many anti-cheat violations"` precisely when the
incremented count reaches `MAX_VIOLATIONS = 10`; consequently ten
consecutive SpeedHack moves from zero violations leave `violations = 10`,
send ten `Error` frames and exactly one `Kicked` frame, and the first nine
moves send no `Kicked` frame. -/
theorem violation_frames_and_tenth_move_kick :
    (∀ (s : PlayerActor) (msg : MovePlayer) (now : ℕ),
      validate_movement s.position msg.position msg.velocity msg.delta_time MAX_SPEED =
          ValidationResult.SpeedHack →
        (s.handleMove msg now).state.violations = s.violations + 1 ∧
        (s.handleMove msg now).frames =
          ServerMessage.Error ("SPEED HACK" ++ " detected. Violations: " ++
              toString (s.violations + 1) ++ "/" ++ toString MAX_VIOLATIONS) ::
            (if MAX_VIOLATIONS ≤ s.violations + 1 then
              [ServerMessage.Kicked "Too many anti-cheat violations"] else [])) ∧
    (∀ (s : PlayerActor) (msg : MovePlayer) (now : ℕ),
      validate_movement s.position msg.position msg.velocity msg.delta_time MAX_SPEED =
          ValidationResult.Teleport →
        (s.handleMove msg now).state.violations = s.violations + 1 ∧
        (s.handleMove msg now).frames =
          ServerMessage.Error ("TELEPORT" ++ " detected. Violations: " ++
              toString (s.violations + 1) ++ "/" ++ toString MAX_VIOLATIONS) ::
            (if MAX_VIOLATIONS ≤ s.violations + 1 then
              [ServerMessage.Kicked "Too many anti-cheat violations"] else [])) ∧
    ((testActor.runMoves (List.replicate 10 speedHackMsg) 0).state.violations = 10 ∧
      ((testActor.runMoves (List.replicate 10 speedHackMsg) 0).frames.countP
        ServerMessage.isError) = 10 ∧
      ((testActor.runMoves (List.replicate 10 speedHackMsg) 0).frames.countP
        ServerMessage.isKicked) = 1 ∧
      ((testActor.runMoves (List.replicate 9 speedHackMsg) 0).frames.countP
        ServerMessage.isKicked) = 0) := by
  refine ⟨?_, ?_, ?_⟩
  · intro s msg now hv
    rw [handleMove_speedHack s msg now hv, handle_violation_eq]
    exact ⟨rfl, rfl⟩
  · intro s msg now hv
    rw [handleMove_teleport s msg now hv, handle_violation_eq]
    exact ⟨rfl, rfl⟩
  · simp [testActor, PlayerActor.new, PlayerActor.runMoves, List.replicate,
      handleMove_speedHack, speedHackMsg_classifies, handle_violation_eq,
      MAX_VIOLATIONS, ServerMessage.isError, ServerMessage.isKicked,
      List.countP_cons, List.countP_nil]

/-- C3 witness: the general SpeedHack part applied at a concrete state with
nine prior violations: the tenth violation sends the `Error` frame followed
by the `Kicked` frame. -/
theorem violation_frames_and_tenth_move_kick_witness :
    ({ testActor with violations := 9 }.handleMove speedHackMsg 7).state.violations = 9 + 1 ∧
    ({ testActor with violations := 9 }.handleMove speedHackMsg 7).frames =
      ServerMessage.Error ("SPEED HACK" ++ " detected. Violations: " ++
          toString (9 + 1) ++ "/" ++ toString MAX_VIOLATIONS) ::
        (if MAX_VIOLATIONS ≤ 9 + 1 then
          [ServerMessage.Kicked "Too many anti-cheat violations"] else []) :=
  violation_frames_and_tenth_move_kick.1 { testActor with violations := 9 } speedHackMsg 7
    (by simpa [testActor, PlayerActor.new] using speedHackMsg_classifies)

/-- C7: an OutOfBounds move leaves the actor state (in particular position,
velocity and violations) completely unchanged, sends exactly one
`Error "Position out of bounds"` frame and no `Kicked` frame, and publishes
nothing. -/
theorem outOfBounds_error_frame_state_unchanged
    (s : PlayerActor) (msg : MovePlayer) (now : ℕ)
    (hv : validate_movement s.position msg.position msg.velocity msg.delta_time MAX_SPEED =
      ValidationResult.OutOfBounds) :
    (s.handleMove msg now).state = s ∧
    (s.handleMove msg now).frames = [ServerMessage.Error "Position out of bounds"] ∧
    ((s.handleMove msg now).frames.countP ServerMessage.isKicked) = 0 ∧
    (s.handleMove msg now).events = [] := by
  rw [handleMove_outOfBounds s msg now hv]
  refine ⟨rfl, rfl, ?_, rfl⟩
  simp [ServerMessage.isKicked]

/-- C7 witness: a move to `(2000, 0, 0)` is out of bounds and leaves the
test actor unchanged, sending only the error frame. -/
theorem outOfBounds_error_frame_state_unchanged_witness :
    (testActor.handleMove ⟨⟨2000, 0, 0⟩, Position.default, 1⟩ 3).state = testActor ∧
    (testActor.handleMove ⟨⟨2000, 0, 0⟩, Position.default, 1⟩ 3).frames =
      [ServerMessage.Error "Position out of bounds"] ∧
    ((testActor.handleMove ⟨⟨2000, 0, 0⟩, Position.default, 1⟩ 3).frames.countP
      ServerMessage.isKicked) = 0 ∧
    (testActor.handleMove ⟨⟨2000, 0, 0⟩, Position.default, 1⟩ 3).events = [] :=
  outOfBounds_error_frame_state_unchanged testActor ⟨⟨2000, 0, 0⟩, Position.default, 1⟩ 3
    (by
      simp [validate_movement, is_in_bounds, WORLD_BOUNDS]
      norm_num)

theorem applyEvents_isSome_eq (now : ℕ) (events : List GameEvent) :
    ∀ (t : SnapshotTable) (id : String),
      ((applyEvents now events t) id).isSome =
        (containsJoinNoLeaveAfter events id ||
          ((t id).isSome && !(events.any (isLeaveOf id)))) := by
  induction events with
  | nil =>
      intro t id
      simp [applyEvents, containsJoinNoLeaveAfter]
  | cons e rest ih =>
      intro t id
      cases e with
      | PlayerJoined pid wallet pos =>
          rw [applyEvents, ih]
          by_cases hid : id = pid
          · subst hid
            simp only [handle_game_event, containsJoinNoLeaveAfter, isJoinOf, isLeaveOf,
              List.any_cons, beq_self_eq_true, if_pos rfl, Option.isSome_some,
              Bool.true_and, Bool.false_or, Bool.and_true]
            cases hb : rest.any (isLeaveOf id) <;> simp [hb]
          · have hid' : (pid == id) = false := by
              simp [beq_eq_false_iff_ne]
              exact fun hc => hid hc.symm
            simp [handle_game_event, hid, containsJoinNoLeaveAfter, isJoinOf, isLeaveOf,
              List.any_cons, hid']
      | PlayerMoved pid pos vel =>
          rw [applyEvents, ih]
          have hmem : ((handle_game_event now (GameEvent.PlayerMoved pid pos vel) t) id).isSome =
              (t id).isSome := by
            simp only [handle_game_event]
            cases hpid : t pid with
            | none => rfl
            | some st =>
                by_cases hid : id = pid
                · subst hid
                  simp [hpid]
                · simp [hid]
          rw [hmem]
          simp [containsJoinNoLeaveAfter, isJoinOf, isLeaveOf, List.any_cons]
      | PlayerLeft pid =>
          rw [applyEvents, ih]
          by_cases hid : id = pid
          · subst hid
            simp [handle_game_event, containsJoinNoLeaveAfter, isJoinOf, isLeaveOf,
              List.any_cons]
          · have hid' : (pid == id) = false := by
              simp [beq_eq_false_iff_ne]
              exact fun hc => hid hc.symm
            simp [handle_game_event, hid, containsJoinNoLeaveAfter, isJoinOf, isLeaveOf,
              List.any_cons, hid']

/-- C4: starting from the empty snapshot table, after folding the event
handler over any finite event sequence the table has an entry for an id iff
the sequence contains a `PlayerJoined` for that id with no later
`PlayerLeft` for it; and a `PlayerMoved` whose id is not in the table
leaves the table unchanged. -/
theorem snapshot_membership_iff_join_no_leave :
    (∀ (now : ℕ) (events : List GameEvent) (id : String),
      ((applyEvents now events emptyTable) id).isSome = containsJoinNoLeaveAfter events id) ∧
    (∀ (now : ℕ) (pid : String) (pos vel : Position) (t : SnapshotTable),
      t pid = none →
      handle_game_event now (GameEvent.PlayerMoved pid pos vel) t = t) := by
  constructor
  · intro now events id
    rw [applyEvents_isSome_eq]
    simp [emptyTable]
  · intro now pid pos vel t h
    simp [handle_game_event, h]

/-- C4 witness: a single `PlayerJoined "p"` makes `"p"` live, and a
`PlayerMoved` for the unknown id `"ghost"` leaves the empty table
unchanged. -/
theorem snapshot_membership_iff_join_no_leave_witness :
    ((applyEvents 0 [GameEvent.PlayerJoined "p" "w" Position.default] emptyTable) "p").isSome =
      containsJoinNoLeaveAfter [GameEvent.PlayerJoined "p" "w" Position.default] "p" ∧
    handle_game_event 0 (GameEvent.PlayerMoved "ghost" Position.default Position.default)
      emptyTable = emptyTable :=
  ⟨snapshot_membership_iff_join_no_leave.1 0 [GameEvent.PlayerJoined "p" "w" Position.default] "p",
    snapshot_membership_iff_join_no_leave.2 0 "ghost" Position.default Position.default
      emptyTable rfl⟩

/-- C8 counterexample: the claim reads the inserted nickname as the id with
its `player_` tag stripped; for id `"player_abc"` that would be `"abc"`,
but the handler stores `"Player_abc"`. -/
theorem snapshot_join_nickname_counterexample :
    (handle_game_event 0 (GameEvent.PlayerJoined "player_abc" "w" Position.default)
        emptyTable "player_abc").map PlayerState.nickname ≠
      some (specNicknameStrippedOnly "player_abc") := by
  decide

/-- C8 amended: `PlayerJoined{id, wallet, position}` inserts an entry for
the id whose nickname is `"Player_"` followed by the id with any `player_`
tag stripped, whose velocity is zero, whose violations is zero, and whose
`previous_position` equals the event's position. -/
theorem snapshot_join_inserts_full_entry (now : ℕ) (id wallet : String) (pos : Position)
    (t : SnapshotTable) :
    handle_game_event now (GameEvent.PlayerJoined id wallet pos) t id =
      some { player_id := id, wallet := wallet, nickname := broadcastNickname id,
             position := pos, velocity := Position.default, last_update := now,
             previous_position := pos, violations := 0 } := by
  simp [handle_game_event]

theorem rateLimitSteps_within_window (ts : List ℕ) :
    ∀ (k t0 : ℕ), (∀ t ∈ ts, t - t0 < RATE_LIMIT_WINDOW_MS) →
      rateLimitSteps ⟨k, t0⟩ ts =
        (List.range ts.length).map (fun i => decide (k + i < MAX_MOVES_PER_SECOND)) := by
  induction ts with
  | nil =>
      intro k t0 _
      simp [rateLimitSteps]
  | cons t rest ih =>
      intro k t0 h
      have ht : ¬(RATE_LIMIT_WINDOW_MS ≤ t - t0) :=
        Nat.not_le.mpr (h t (List.mem_cons_self t rest))
      show (process_move ⟨k, t0⟩ t).2 ::
          rateLimitSteps (process_move ⟨k, t0⟩ t).1 rest =
        (List.range (rest.length + 1)).map (fun i => decide (k + i < MAX_MOVES_PER_SECOND))
      simp only [process_move, if_neg ht]
      rw [ih (k + 1) t0 (fun t' ht' => h t' (List.mem_cons_of_mem t ht'))]
      rw [List.range_succ_eq_map, List.map_cons, List.map_map]
      refine List.cons_eq_cons.mpr ⟨decide_eq_decide.mpr (by omega), ?_⟩
      refine List.map_congr_left fun i _ => ?_
      simp only [Function.comp_apply]
      exact decide_eq_decide.mpr (by omega)

/-- C6: while less than `RATE_LIMIT_WINDOW_MS = 1000` ms have elapsed since
the window anchor, exactly the first `MAX_MOVES_PER_SECOND = 60` Moves are
forwarded and the rest dropped; whenever at least 1000 ms have elapsed, the
anchor advances to the current time, the counter restarts at this move, and
the move is forwarded; in particular 100 Moves within 200 ms forward
exactly the first 60. -/
theorem rate_limiter_forwards_first_60 :
    (∀ (t0 : ℕ) (ts : List ℕ),
      (∀ t ∈ ts, t - t0 < RATE_LIMIT_WINDOW_MS) →
      rateLimitSteps ⟨0, t0⟩ ts =
        (List.range ts.length).map (fun i => decide (i < MAX_MOVES_PER_SECOND))) ∧
    (∀ (rl : RateLimiter) (now : ℕ),
      RATE_LIMIT_WINDOW_MS ≤ now - rl.window_start →
      process_move rl now = (⟨1, now⟩, true)) ∧
    (rateLimitSteps ⟨0, 0⟩ ((List.range 100).map (fun i => 2 * i)) =
      List.replicate 60 true ++ List.replicate 40 false) := by
  refine ⟨?_, ?_, ?_⟩
  · intro t0 ts h
    simpa using rateLimitSteps_within_window ts 0 t0 h
  · intro rl now h
    simp [process_move, if_pos h, MAX_MOVES_PER_SECOND]
  · decide

/-- C6 witness: three immediate Moves inside a fresh window are all
forwarded, and a Move arriving 1000 ms after the anchor resets the window
and is forwarded as the first move of the new window. -/
theorem rate_limiter_forwards_first_60_witness :
    rateLimitSteps ⟨0, 5⟩ [5, 6, 7] =
      (List.range 3).map (fun i => decide (i < MAX_MOVES_PER_SECOND)) ∧
    process_move ⟨7, 0⟩ 1000 = (⟨1, 1000⟩, true) :=
  ⟨rate_limiter_forwards_first_60.1 5 [5, 6, 7] (by decide),
    rate_limiter_forwards_first_60.2.1 ⟨7, 0⟩ 1000 (by decide)⟩

/-- C9: for every path with at least one segment, appending the path's key
to its parent with the division operator reconstructs the path. -/
theorem path_parent_div_key_eq (p : ActorPath) (h : p.segments ≠ []) :
    p.parent / p.key = p := by
  obtain ⟨l⟩ := p
  show ActorPath.mk ((ActorPath.mk l).parent.segments ++ [(ActorPath.mk l).key]) =
    ActorPath.mk l
  simp only [ActorPath.parent, ActorPath.key] at *
  by_cases hl : 1 < l.length
  · simp only [if_pos hl]
    rw [List.getLast?_eq_getLast l h]
    simp [List.dropLast_append_getLast]
  · have h1 : l.length = 1 := by
      cases l with
      | nil => exact absurd rfl h
      | cons a rest =>
          simp only [List.length_cons] at hl ⊢
          omega
    obtain ⟨a, rfl⟩ := List.length_eq_one.mp h1
    rfl

/-- C9 witness: `(/user/player-1).parent() / key() = /user/player-1`. -/
theorem path_parent_div_key_eq_witness :
    (ActorPath.mk ["user", "player-1"]).parent / (ActorPath.mk ["user", "player-1"]).key =
      ActorPath.mk ["user", "player-1"] :=
  path_parent_div_key_eq ⟨["user", "player-1"]⟩ (by decide)

/-- C5 counterexample: a strategy whose `next_backoff()` always returns
none (the `NoIntervalStrategy`) with `max_retries = 2` and an always-failing
restart: the runner still makes 2 restart attempts, not 0 — a `none`
backoff does not terminate retrying. -/
theorem retry_none_backoff_counterexample :
    ((⟨2, fun _ => none⟩ : RetryStrategyM).nextBackoff 0 = none) ∧
    ((⟨2, fun _ => none⟩ : RetryStrategyM).nextBackoff 1 = none) ∧
    (actorRunnerRetry ⟨2, fun _ => none⟩ (fun _ => false)).1 = 2 :=
  ⟨rfl, rfl, rfl⟩

theorem runnerRetryGo_fst_backoff_independent (ok : ℕ → Bool) :
    ∀ (n : ℕ) (nb1 nb2 : ℕ → Option ℕ) (retries : ℕ) (err : Bool),
      (runnerRetryGo nb1 ok n retries err).1 = (runnerRetryGo nb2 ok n retries err).1 := by
  intro n
  induction n with
  | zero => intro nb1 nb2 retries err; rfl
  | succ m ih =>
      intro nb1 nb2 retries err
      cases err with
      | false => rfl
      | true => simpa [runnerRetryGo] using ih nb1 nb2 (retries + 1) (!(ok retries))

theorem runnerRetryGo_all_none_all_fail (nb : ℕ → Option ℕ) (ok : ℕ → Bool)
    (hnb : ∀ k, nb k = none) (hok : ∀ k, ok k = false) :
    ∀ (n retries : ℕ), runnerRetryGo nb ok n retries true = (retries + n, 0) := by
  intro n
  induction n with
  | zero => intro retries; rfl
  | succ m ih =>
      intro retries
      simp only [runnerRetryGo, hnb, hok, Option.getD_none, Bool.not_false]
      rw [ih (retries + 1)]
      have hr : retries + 1 + m = retries + (m + 1) := by omega
      simp [hr]

/-- C5 amended: when `next_backoff()` returns none the runner only skips
the backoff sleep — the number of restart attempts does not depend on the
backoff results at all, and with an all-none strategy and an always-failing
restart the runner makes exactly `max_retries` attempts (sleeping a total
of 0), terminating only by exhausting `max_retries`. -/
theorem retry_none_backoff_skips_sleep_only :
    (∀ (s : RetryStrategyM) (restartOk : ℕ → Bool),
      (actorRunnerRetry s restartOk).1 =
        (actorRunnerRetry ⟨s.maxRetries, fun _ => none⟩ restartOk).1) ∧
    (∀ (s : RetryStrategyM) (restartOk : ℕ → Bool),
      (∀ k, s.nextBackoff k = none) → (∀ k, restartOk k = false) →
      actorRunnerRetry s restartOk = (s.maxRetries, 0)) := by
  constructor
  · intro s restartOk
    exact runnerRetryGo_fst_backoff_independent restartOk s.maxRetries s.nextBackoff
      (fun _ => none) 0 true
  · intro s restartOk hnb hok
    show runnerRetryGo s.nextBackoff restartOk s.maxRetries 0 true = (s.maxRetries, 0)
    rw [runnerRetryGo_all_none_all_fail s.nextBackoff restartOk hnb hok s.maxRetries 0]
    simp

/-- C5 amended witness: an all-none strategy with `max_retries = 3` and an
always-failing restart makes exactly 3 attempts and never sleeps. -/
theorem retry_none_backoff_skips_sleep_only_witness :
    actorRunnerRetry ⟨3, fun _ => none⟩ (fun _ => false) = (3, 0) :=
  retry_none_backoff_skips_sleep_only.2 ⟨3, fun _ => none⟩ (fun _ => false)
    (fun _ => rfl) (fun _ => rfl)

end GameServer
